import Mathlib

/-!
Verification development for the camera-recorder component in
`src/src/App.jsx` (the web `CameraRecorder` component, the second document
in that file; all cited line numbers refer to it).

Shallow embedding conventions:
* JavaScript numbers that the component manipulates (durations, the
  `probabilities` score, `secondsLeft`) are modelled as rationals `ℚ`;
  a possibly-NaN number (the probed duration of a chosen file) is
  modelled as `Option ℚ` with `none` standing for NaN, matching the
  spec's `probeDuration(file) → seconds | NaN`.
* Time is in milliseconds (`Nat`), matching the source's
  `setTimeout(..., 60_000)` and `setInterval(..., 1000)`.
* React `useState` fields and the `useRef` cells become fields of one
  record `Sess`.  `URL.createObjectURL` is modelled by a fresh counter
  `blobSeq`; `URL.revokeObjectURL` acts on the browser's URL store, not
  on component state, so it has no effect on `Sess`.
* Each entry point of the component (button handlers, timer callbacks,
  the recorder's `onstop` callback, the upload's response) becomes an
  event of an inductive type `Ev`, and `step` gives the event-loop
  semantics.  Button events are guarded by the button's `disabled`
  attribute exactly as rendered in the JSX (lines 509-519, 533, 552).
-/

attribute [local semireducible] Rat.add Rat.mul Rat.inv Rat.sub Rat.ofScientific

/-- Status values stored in the `status` React state (line 297 and the
`setStatus` calls). -/
inductive Status
  | idle
  | ready
  | countdown
  | recording
  | finished
  | error
deriving DecidableEq

/-- State of one `MediaRecorder` instance: `recording` after `rec.start()`;
`stopping` once `rec.stop()` has been requested (the recorder is no longer
in the `"recording"` state but its terminal `onstop` callback has not run
yet); `inactive` after `onstop` ran. -/
inductive EncState
  | recording
  | stopping
  | inactive
deriving DecidableEq

/-- `true` exactly on a recorder in the `"recording"` state. -/
def isRec : EncState → Bool
  | EncState.recording => true
  | _ => false

/-- The component's state: the `useState` hooks (lines 297-306) together
with the `useRef` cells (lines 289-295).  `recorders` lists every
`MediaRecorder` ever constructed, most recent first; its head is
`recorderRef.current`.  `countdownObs` logs every `setCountdown` value in
order (the observable countdown updates), `beginCount` counts
`MediaRecorder` instantiations, and `requestCount` counts `fetch` calls. -/
structure Sess where
  status : Status
  countdown : Int
  remaining : Int
  secondsLeft : ℚ
  countdownArmed : Bool
  stopTimerArmed : Bool
  stopTimerDue : Nat
  startedAt : Nat
  recorders : List EncState
  recordedBlob : Option Nat
  blobUrl : Option Nat
  blobSeq : Nat
  stream : Bool
  error : String
  accuracy : Option String
  isSending : Bool
  selectedFile : Bool
  selectedDuration : Option (Option ℚ)
  countdownObs : List Int
  beginCount : Nat
  requestCount : Nat
deriving DecidableEq

/-- Initial component state: the `useState` initialisers at lines 297-306
(`status "idle"`, `countdown 5`, `secondsLeft 60`, everything else
empty/null/false) and empty refs. -/
def initSess : Sess :=
  { status := Status.idle
    countdown := 5
    remaining := 5
    secondsLeft := 60
    countdownArmed := false
    stopTimerArmed := false
    stopTimerDue := 0
    startedAt := 0
    recorders := []
    recordedBlob := none
    blobUrl := none
    blobSeq := 0
    stream := false
    error := ""
    accuracy := none
    isSending := false
    selectedFile := false
    selectedDuration := none
    countdownObs := []
    beginCount := 0
    requestCount := 0 }

/-- `ensureStream` (lines 314-327), success path: returns the existing
stream if present (no state change), otherwise acquires one and sets
status `"ready"`. -/
def ensureStream (s : Sess) : Sess :=
  if s.stream then s else { s with stream := true, status := Status.ready }

/-- Two-digit zero padding used by `toFixed2` below. -/
def pad2 (n : Nat) : String :=
  if n < 10 then "0" ++ Nat.repr n else Nat.repr n

/-- Model of JavaScript's `x.toFixed(2)` on a rational: round `x` to the
nearest hundredth (ties away from zero on the magnitude) and print with
exactly two decimal places.  Only applied to non-negative values in this
development (durations and percentage scores). -/
def toFixed2 (q : ℚ) : String :=
  if q < 0 then
    let n := (Rat.floor (-q * 100 + 1 / 2)).toNat
    "-" ++ Nat.repr (n / 100) ++ "." ++ pad2 (n % 100)
  else
    let n := (Rat.floor (q * 100 + 1 / 2)).toNat
    Nat.repr (n / 100) ++ "." ++ pad2 (n % 100)

/-- The rejection message built at line 445:
`Selected video must be ~60s. Detected X s.` where `X` is
`dur.toFixed(2)` for a finite duration and `"unknown"` for NaN. -/
def rejectionMsg (d : Option ℚ) : String :=
  "Selected video must be ~60s. Detected " ++
    (match d with
      | some q => toFixed2 q
      | none => "unknown") ++ "s."

/-- `handleFilePick` (lines 436-449) for a chosen file whose probed
duration (`validateDurationApprox60`, lines 418-434) resolved to `d`
(`none` = NaN, from the `onerror` path).  Resets `selectedFile`,
`selectedDuration` and `error`, stores the probed duration, then rejects
when `!isFinite(dur) || Math.abs(dur - 60) > 3`, else accepts the file. -/
def handleFilePick (s : Sess) (d : Option ℚ) : Sess :=
  let s1 := { s with selectedFile := false, selectedDuration := none, error := "" }
  let s2 := { s1 with selectedDuration := some d }
  match d with
  | none => { s2 with error := rejectionMsg none }
  | some q =>
      if |q - 60| > 3 then { s2 with error := rejectionMsg (some q) }
      else { s2 with selectedFile := true }

/-- `beginRecording` (lines 357-395), success path: constructs one
`MediaRecorder`, starts it, sets status `"recording"`, `secondsLeft = 60`,
remembers `startedAt` and arms the hard 60 s deadline
`setTimeout(() => stop(), 60_000)` (line 390). -/
def beginRecording (t : Nat) (s : Sess) : Sess :=
  { s with recorders := EncState.recording :: s.recorders
           beginCount := s.beginCount + 1
           status := Status.recording
           secondsLeft := 60
           startedAt := t
           stopTimerArmed := true
           stopTimerDue := t + 60000 }

/-- `start` (lines 329-355), success path: clears `error`, `blobUrl`,
`recordedBlob` and `accuracy`, runs `ensureStream`, resets the chunk
buffer, shows countdown `5` and arms the 1-second countdown interval with
the closure variable `remaining = 5`. -/
def start (s : Sess) : Sess :=
  let s1 := { s with error := "", blobUrl := none, recordedBlob := none,
                     accuracy := none }
  let s2 := ensureStream s1
  { s2 with countdown := 5
            remaining := 5
            status := Status.countdown
            countdownArmed := true
            countdownObs := s2.countdownObs ++ [5] }

/-- One firing of the countdown interval callback (lines 343-350):
decrement `remaining`, publish it via `setCountdown`, and at `remaining ≤ 0`
clear the interval and call `beginRecording`. -/
def countdownStep (t : Nat) (s : Sess) : Sess :=
  let r := s.remaining - 1
  let s1 := { s with remaining := r, countdown := r,
                     countdownObs := s.countdownObs ++ [r] }
  if r ≤ 0 then beginRecording t { s1 with countdownArmed := false } else s1

/-- `stop` (lines 397-405): request `recorderRef.current.stop()` only when
the current recorder exists and is in the `"recording"` state, then
`clearTimeout(stopTimerRef)` and `clearInterval(countdownTimerRef)`. -/
def stop (s : Sess) : Sess :=
  let s1 :=
    match s.recorders with
    | EncState.recording :: rest => { s with recorders := EncState.stopping :: rest }
    | _ => s
  { s1 with stopTimerArmed := false, countdownArmed := false }

/-- `cleanup` (lines 407-416): `stop()`, then stop all tracks of the held
stream and null the ref; `URL.revokeObjectURL(blobUrl)` acts only on the
browser's URL store (revoking an already-revoked URL is a platform no-op)
and touches no component state. -/
def cleanup (s : Sess) : Sess :=
  { stop s with stream := false }

/-- The recorder's terminal `onstop` callback (lines 367-374): assemble
the buffered chunks into one blob, create an object URL, publish both,
set status `"finished"` and reset `secondsLeft` to 60 for display.  Fires
for a recorder that has stopped (either because `stop()` was requested or
because the platform ended it); a recorder already `inactive` has no
pending callback. -/
def onstop (s : Sess) : Sess :=
  match s.recorders with
  | r :: rest =>
      if r = EncState.inactive then s
      else
        { s with recorders := EncState.inactive :: rest
                 recordedBlob := some s.blobSeq
                 blobUrl := some s.blobSeq
                 blobSeq := s.blobSeq + 1
                 status := Status.finished
                 secondsLeft := 60 }
  | [] => s

/-- Outcome of the single `fetch` in `send` (lines 459-461): a 2xx
response carrying the parsed JSON body's numeric `probabilities` field
when present (`none` also covers an unparseable body, which
`res.json().catch(() => ({}))` turns into `{}`); a non-2xx response with
its status code and status text; or a transport-level fault whose
`String(e)` rendering is `msg`. -/
inductive Response
  | ok (probabilities : Option ℚ)
  | httpError (code : Nat) (statusText : String)
  | fault (msg : String)

/-- Entry of `send` (lines 451-458): `setIsSending(true)`, `setError("")`,
build the form data and issue the one `fetch` (counted by
`requestCount`). -/
def sendEntry (s : Sess) : Sess :=
  { s with isSending := true, error := "", requestCount := s.requestCount + 1 }

/-- Resolution of `send` (lines 460-470): on `!res.ok` the thrown
`Error` whose `String(e)` is `"Error: Upload failed: <status> <statusText>"`
lands in `setError`; on 2xx with a `probabilities` field the score is
published as `(p * 100).toFixed(2)`; the `finally` block always runs
`setIsSending(false)`. -/
def sendFinish (s : Sess) : Response → Sess
  | Response.ok (some p) =>
      { s with accuracy := some (toFixed2 (p * 100)), isSending := false }
  | Response.ok none => { s with isSending := false }
  | Response.httpError code text =>
      { s with error := "Error: Upload failed: " ++ Nat.repr code ++ " " ++ text
               isSending := false }
  | Response.fault msg => { s with error := msg, isSending := false }

/-- `send` (lines 451-471) as a whole, from call to settlement of the
returned promise. -/
def send (s : Sess) (r : Response) : Sess :=
  sendFinish (sendEntry s) r

/-- Entry points of the component, i.e. the events its event loop can
process.  Button events carry the guard of their `disabled` attribute in
`step`.  `filePick none` is a change event with no file
(`e.target.files?.[0]` empty); `filePick (some d)` carries the probed
duration of the chosen file. -/
inductive Ev
  | camera
  | start
  | startFail (msg : String)
  | countdownFire
  | beginFail (msg : String)
  | stopBtn
  | deadlineFire
  | onstopFire
  | rafTick
  | cleanupEv
  | filePick (d : Option (Option ℚ))
  | sendRecordedEv (r : Response)
  | sendSelectedEv (r : Response)

/-- Event-loop semantics at wall-clock time `t` (milliseconds).  A guard
that fails (a disabled button, a cleared interval firing) leaves the state
unchanged. -/
def step (t : Nat) : Ev → Sess → Sess
  | Ev.camera, s =>
      if s.status = Status.idle ∨ s.status = Status.ready then ensureStream s else s
  | Ev.start, s =>
      if s.status = Status.ready ∨ s.status = Status.finished then start s else s
  | Ev.startFail msg, s =>
      if s.status = Status.ready ∨ s.status = Status.finished then
        { s with error := msg, blobUrl := none, recordedBlob := none,
                 accuracy := none, status := Status.error }
      else s
  | Ev.countdownFire, s =>
      if s.countdownArmed then countdownStep t s else s
  | Ev.beginFail msg, s =>
      if s.countdownArmed then
        let r := s.remaining - 1
        let s1 := { s with remaining := r, countdown := r,
                           countdownObs := s.countdownObs ++ [r] }
        if r ≤ 0 then
          { s1 with countdownArmed := false, error := msg, status := Status.error }
        else s1
      else s
  | Ev.stopBtn, s =>
      if s.status = Status.recording ∨ s.status = Status.countdown then stop s else s
  | Ev.deadlineFire, s => stop s
  | Ev.onstopFire, s => onstop s
  | Ev.rafTick, s =>
      { s with secondsLeft := max 0 (60 - ((t : ℚ) - (s.startedAt : ℚ)) / 1000) }
  | Ev.cleanupEv, s => cleanup s
  | Ev.filePick none, s =>
      { s with selectedFile := false, selectedDuration := none, error := "" }
  | Ev.filePick (some d), s => handleFilePick s d
  | Ev.sendRecordedEv r, s =>
      if s.recordedBlob.isSome && !s.isSending then send s r else s
  | Ev.sendSelectedEv r, s =>
      if s.selectedFile && !s.isSending then send s r else s

/-- Run a timed event list from a state, in order. -/
def runT : List (Nat × Ev) → Sess → Sess
  | [], s => s
  | (t, e) :: rest, s => runT rest (step t e s)

/-- States reachable from the freshly mounted component. -/
inductive Reach : Sess → Prop
  | refl : Reach initSess
  | tail {s : Sess} (h : Reach s) (t : Nat) (e : Ev) : Reach (step t e s)

/-- `true` when the current recorder (`recorderRef.current`) exists and is
in the `"recording"` state. -/
def headIsRecording (s : Sess) : Bool :=
  match s.recorders with
  | EncState.recording :: _ => true
  | _ => false

/-- Timing faithfulness of a timed event list run from `s`, for scheduling
quantum `q`: whenever the hard deadline timer is armed, the next processed
event occurs no later than `q` after the timer's due time (the platform
fires an armed `setTimeout` within one scheduling quantum of its due
time). -/
def faithfulB (q : Nat) : Sess → List (Nat × Ev) → Bool
  | _, [] => true
  | s, (t, e) :: rest =>
      (!s.stopTimerArmed || decide (t ≤ s.stopTimerDue + q)) &&
        faithfulB q (step t e s) rest

/-- The countdown interval of `start` fires once per second
(`setInterval(..., 1000)`, line 350). -/
def countdownIntervalMs : Nat := 1000

/-- `start` followed by `n` firings of the countdown interval, all fires
taken at time `t`. -/
def countdownRun (s : Sess) (t : Nat) (n : Nat) : Sess :=
  (fun x => step t Ev.countdownFire x)^[n] (step t Ev.start s)

/-- Events of one full successful recording: open camera, press start,
then the five countdown-interval firings at one-second cadence. -/
def recTrace : List (Nat × Ev) :=
  [(0, Ev.camera), (0, Ev.start), (1, Ev.countdownFire), (2, Ev.countdownFire),
   (3, Ev.countdownFire), (4, Ev.countdownFire), (5, Ev.countdownFire)]

/-- The state reached by pressing Stop while the countdown is running
(countdown was at 4 when Stop was pressed). -/
def c6state : Sess :=
  step 2 Ev.stopBtn
    (runT [(0, Ev.camera), (0, Ev.start), (1, Ev.countdownFire)] initSess)

/-- Single-encoder invariant material: every recorder other than the
current one is out of the `"recording"` state; whenever the status is not
`"recording"`, and whenever the countdown interval is armed, no recorder
at all is in the `"recording"` state. -/
def C2Inv (s : Sess) : Prop :=
  (∀ r ∈ s.recorders.tail, isRec r = false) ∧
  (s.status ≠ Status.recording → ∀ r ∈ s.recorders, isRec r = false) ∧
  (s.countdownArmed = true → ∀ r ∈ s.recorders, isRec r = false)

/-- Hard-deadline invariant: while the current recorder is recording, the
60-second `setTimeout` is armed and due exactly 60 000 ms after the
recording started. -/
def DInv (s : Sess) : Prop :=
  headIsRecording s = true →
    s.stopTimerArmed = true ∧ s.stopTimerDue = s.startedAt + 60000

/-- Claim C1: the duration check of `handleFilePick` accepts a chosen file
exactly when the probed duration is a finite number within 3 seconds of
the 60-second target, and on rejection the reported reason embeds the
detected duration formatted to two decimals, or the word "unknown" when
the probe resolved to NaN. -/
theorem spec_c1 (s : Sess) (d : Option ℚ) :
    ((handleFilePick s d).selectedFile = true ↔ ∃ q, d = some q ∧ |q - 60| ≤ 3) ∧
    ((handleFilePick s d).selectedFile = false →
      (handleFilePick s d).error =
        "Selected video must be ~60s. Detected " ++
          (match d with
            | some q => toFixed2 q
            | none => "unknown") ++ "s.") := by
  cases d with
  | none =>
      refine ⟨by simp [handleFilePick], ?_⟩
      intro _
      simp [handleFilePick, rejectionMsg]
  | some q =>
      by_cases h : |q - 60| > 3
      · refine ⟨?_, ?_⟩
        · simp only [handleFilePick, if_pos h]
          constructor
          · intro hfalse
            exact absurd hfalse (by simp)
          · rintro ⟨q0, hq0, hle⟩
            cases hq0
            exact absurd hle (not_le.mpr h)
        · intro _
          simp [handleFilePick, if_pos h, rejectionMsg]
      · refine ⟨?_, ?_⟩
        · simp only [handleFilePick, if_neg h]
          exact ⟨fun _ => ⟨q, rfl, not_lt.mp h⟩, fun _ => trivial⟩
        · intro hfalse
          exact absurd hfalse (by simp [handleFilePick, if_neg h])

/-- Witness for C1 at a file probed at 70.0 s: it is rejected and the
reason embeds "70.00". -/
theorem spec_c1_witness :
    (handleFilePick initSess (some 70)).selectedFile = false ∧
    (handleFilePick initSess (some 70)).error =
      "Selected video must be ~60s. Detected 70.00s." :=
  ⟨by decide, ((spec_c1 initSess (some 70)).2 (by decide)).trans (by decide)⟩

/-- Counterexample to claim C3 as stated: a file probed at 56.9 s is
rejected by the code (|56.9 - 60| = 3.1 exceeds the 3-second tolerance),
whereas the claim asserts it is accepted. -/
theorem spec_c3_cex :
    (handleFilePick initSess (some (569 / 10))).selectedFile = false := by
  decide

/-- Claim C3 (amended): acceptance is symmetric around 60 s with an
inclusive 3-second boundary: 57.0 s is accepted (|57 - 60| = 3 ≤ 3),
56.9 s is rejected (|56.9 - 60| = 3.1 > 3), 63.01 s is rejected, and a
NaN probe is always rejected. -/
theorem spec_c3 : ∀ s : Sess,
    (handleFilePick s (some 57)).selectedFile = true ∧
    (handleFilePick s (some (569 / 10))).selectedFile = false ∧
    (handleFilePick s (some (6301 / 100))).selectedFile = false ∧
    (handleFilePick s none).selectedFile = false := by
  intro s
  refine ⟨?_, ?_, ?_, ?_⟩ <;>
    norm_num [handleFilePick, lt_abs]

/-- Claim C6 (code bug): pressing Stop during the countdown does cancel
the pending capture-begin — the interval is disarmed, no recorder is ever
created and no artifact produced, and further interval firings are
no-ops — but the status is left at `"countdown"`: `stop` contains no
`setStatus("ready")`, so the session never returns to `ready` (the Start
button stays disabled for good).  Evaluated at the failing input: Stop is
pressed one second into the countdown. -/
theorem spec_c6_bug :
    c6state.status = Status.countdown ∧
    c6state.countdownArmed = false ∧
    c6state.recorders = [] ∧
    c6state.recordedBlob = none ∧
    ∀ n : Nat, (fun x => step 3 Ev.countdownFire x)^[n] c6state = c6state := by
  refine ⟨by decide, by decide, by decide, by decide, ?_⟩
  intro n
  apply Function.iterate_fixed
  decide

/-- Claim C7: a 2xx response whose body carries a numeric `probabilities`
field `p` in `[0, 1]` publishes the score `(p * 100).toFixed(2)`; a 2xx
response without that field (or with an unparseable body) is not an error
and leaves the score untouched. -/
theorem spec_c7 (s : Sess) (p : ℚ) (h0 : 0 ≤ p) (h1 : p ≤ 1) :
    (send s (Response.ok (some p))).accuracy = some (toFixed2 (p * 100)) ∧
    (send s (Response.ok none)).accuracy = s.accuracy ∧
    (send s (Response.ok none)).error = "" := by
  exact ⟨rfl, rfl, rfl⟩

/-- Witness for C7: `probabilities = 0.842` yields the displayed score
"84.20". -/
theorem spec_c7_witness :
    0 ≤ (421 / 500 : ℚ) ∧ (421 / 500 : ℚ) ≤ 1 ∧
    (send initSess (Response.ok (some (421 / 500)))).accuracy = some "84.20" :=
  ⟨by norm_num, by norm_num,
   ((spec_c7 initSess (421 / 500) (by norm_num) (by norm_num)).1).trans (by decide)⟩

/-- Claim C8: a non-2xx response makes `send` surface a failure carrying
the status code, after exactly one request, and leaves the recording
state untouched: status, the recorded artifact, the blob URL, the
recorder list and `secondsLeft` are all unchanged, so the artifact stays
available for a manual resend. -/
theorem spec_c8 (s : Sess) (code : Nat) (text : String) :
    (send s (Response.httpError code text)).status = s.status ∧
    (send s (Response.httpError code text)).recordedBlob = s.recordedBlob ∧
    (send s (Response.httpError code text)).blobUrl = s.blobUrl ∧
    (send s (Response.httpError code text)).recorders = s.recorders ∧
    (send s (Response.httpError code text)).secondsLeft = s.secondsLeft ∧
    (send s (Response.httpError code text)).requestCount = s.requestCount + 1 ∧
    (send s (Response.httpError code text)).error =
      "Error: Upload failed: " ++ Nat.repr code ++ " " ++ text := by
  exact ⟨rfl, rfl, rfl, rfl, rfl, rfl, rfl⟩

/-- Claim C9: `cleanup` is idempotent teardown: from any state it
produces no fault, after it the stream's tracks are stopped and the
stream handle is cleared, and a second call changes nothing. -/
theorem spec_c9 (s : Sess) :
    cleanup (cleanup s) = cleanup s ∧ (cleanup s).stream = false := by
  refine ⟨?_, rfl⟩
  unfold cleanup stop
  cases hr : s.recorders with
  | nil => simp [hr]
  | cons r rest => cases r <;> simp [hr]

/-- Claim C10: `send` raises the `isSending` flag on entry and the
`finally` block clears it on every exit path — 2xx with or without a
score, non-2xx, and thrown transport fault — so the UI never stays in the
sending state once the call settles. -/
theorem spec_c10 (s : Sess) (r : Response) :
    (sendEntry s).isSending = true ∧ (send s r).isSending = false := by
  refine ⟨rfl, ?_⟩
  cases r with
  | ok p => cases p <;> rfl
  | httpError code text => rfl
  | fault msg => rfl

/-- A firing of a cleared countdown interval is a no-op. -/
theorem countdownFire_dead (t : Nat) (s : Sess) (h : s.countdownArmed = false) :
    step t Ev.countdownFire s = s := by
  simp [step, h]

/-- Five firings of an armed countdown interval whose closure counter is
at 5: the observations 4, 3, 2, 1, 0 are published, the interval is
cleared, and `beginRecording` runs once. -/
theorem countdown_five (t : Nat) (s : Sess) (ha : s.countdownArmed = true)
    (hr : s.remaining = 5) :
    (fun x => step t Ev.countdownFire x)^[5] s =
      beginRecording t
        { s with remaining := 0, countdown := 0, countdownArmed := false,
                 countdownObs := s.countdownObs ++ [4, 3, 2, 1, 0] } := by
  norm_num [Function.iterate_succ_apply, Function.iterate_zero_apply, step,
    countdownStep, beginRecording, ha, hr, List.append_assoc]

/-- The state right after a successful `start` from `"ready"`: countdown
shown at 5, interval armed, counter at 5, no recorder created yet. -/
theorem start_fields (t : Nat) (s : Sess) (hs : s.status = Status.ready) :
    (step t Ev.start s).countdownArmed = true ∧
    (step t Ev.start s).remaining = 5 ∧
    (step t Ev.start s).countdownObs = s.countdownObs ++ [5] ∧
    (step t Ev.start s).beginCount = s.beginCount ∧
    (step t Ev.start s).recorders = s.recorders := by
  by_cases hst : s.stream <;>
    simp [step, start, ensureStream, hs, hst]

/-- Claim C4: `start` initialises the countdown to 5 (one observable
update showing 5), the interval then publishes exactly the five
observations 4, 3, 2, 1, 0, and when the counter reaches 0 exactly one
`MediaRecorder` is instantiated — and only one, no matter how many
further interval firings occur, because the interval is cleared at 0. -/
theorem spec_c4 (s : Sess) (t : Nat) (n : Nat) (hs : s.status = Status.ready)
    (hn : 5 ≤ n) :
    (step t Ev.start s).countdownObs = s.countdownObs ++ [5] ∧
    (countdownRun s t n).countdownObs = s.countdownObs ++ [5, 4, 3, 2, 1, 0] ∧
    (countdownRun s t n).beginCount = s.beginCount + 1 ∧
    (countdownRun s t n).recorders = EncState.recording :: s.recorders ∧
    countdownIntervalMs = 1000 := by
  obtain ⟨m, rfl⟩ : ∃ m, n = m + 5 := ⟨n - 5, by omega⟩
  obtain ⟨ha, hrem, hobs, hbc, hrecs⟩ := start_fields t s hs
  have h5 := countdown_five t (step t Ev.start s) ha hrem
  have hrun : countdownRun s t (m + 5) =
      (fun x => step t Ev.countdownFire x)^[5] (step t Ev.start s) := by
    unfold countdownRun
    rw [Function.iterate_add_apply]
    exact Function.iterate_fixed (by rw [h5]; exact countdownFire_dead t _ rfl) m
  refine ⟨hobs, ?_, ?_, ?_, rfl⟩
  · rw [hrun, h5]
    simp [beginRecording, hobs, List.append_assoc]
  · rw [hrun, h5]
    simp [beginRecording, hbc]
  · rw [hrun, h5]
    simp [beginRecording, hrecs]

/-- Witness for C4: from the ready state after opening the camera, with
7 interval firings (two of them stale), the observations are exactly
5, 4, 3, 2, 1, 0 and exactly one recorder is created. -/
theorem spec_c4_witness :
    (step 0 Ev.camera initSess).status = Status.ready ∧ 5 ≤ 7 ∧
    (countdownRun (step 0 Ev.camera initSess) 0 7).countdownObs =
      (step 0 Ev.camera initSess).countdownObs ++ [5, 4, 3, 2, 1, 0] ∧
    (countdownRun (step 0 Ev.camera initSess) 0 7).beginCount =
      (step 0 Ev.camera initSess).beginCount + 1 :=
  ⟨by decide, by decide,
   (spec_c4 (step 0 Ev.camera initSess) 0 7 (by decide) (by decide)).2.1,
   (spec_c4 (step 0 Ev.camera initSess) 0 7 (by decide) (by decide)).2.2.1⟩

/-- `stop` preserves the single-encoder invariant. -/
theorem stop_C2Inv {s : Sess} (h : C2Inv s) : C2Inv (stop s) := by
  obtain ⟨h1, h2, h3⟩ := h
  unfold C2Inv stop
  cases hr : s.recorders with
  | nil => simp [hr]
  | cons r rest =>
      rw [hr] at h1 h2
      simp only [List.tail_cons] at h1
      cases r with
      | recording =>
          simp only [hr]
          refine ⟨?_, ?_, ?_⟩
          · intro x hx
            simp only [List.tail_cons] at hx
            exact h1 x hx
          · intro _ x hx
            rcases List.mem_cons.mp hx with rfl | hx2
            · rfl
            · exact h1 x hx2
          · intro hb
            exact absurd hb (by simp)
      | stopping =>
          simp only [hr]
          refine ⟨?_, ?_, ?_⟩
          · intro x hx
            simp only [List.tail_cons] at hx
            exact h1 x hx
          · intro hne x hx
            exact h2 hne x hx
          · intro hb
            exact absurd hb (by simp)
      | inactive =>
          simp only [hr]
          refine ⟨?_, ?_, ?_⟩
          · intro x hx
            simp only [List.tail_cons] at hx
            exact h1 x hx
          · intro hne x hx
            exact h2 hne x hx
          · intro hb
            exact absurd hb (by simp)

/-- The recorder's terminal callback preserves the single-encoder
invariant. -/
theorem onstop_C2Inv {s : Sess} (h : C2Inv s) : C2Inv (onstop s) := by
  obtain ⟨h1, h2, h3⟩ := h
  cases hr : s.recorders with
  | nil =>
      have he : onstop s = s := by simp [onstop, hr]
      rw [he]
      exact ⟨h1, h2, h3⟩
  | cons r rest =>
      have h1r : ∀ x ∈ rest, isRec x = false := by
        intro x hx
        exact h1 x (by simp [hr, hx])
      by_cases hri : r = EncState.inactive
      · have he : onstop s = s := by simp [onstop, hr, hri]
        rw [he]
        exact ⟨h1, h2, h3⟩
      · have he : onstop s =
            { s with
                recorders := EncState.inactive :: rest,
                recordedBlob := some s.blobSeq,
                blobUrl := some s.blobSeq,
                blobSeq := s.blobSeq + 1,
                status := Status.finished,
                secondsLeft := 60 } := by
          simp [onstop, hr, hri]
        rw [he]
        refine ⟨?_, ?_, ?_⟩
        · intro x hx
          simp only [List.tail_cons] at hx
          exact h1r x hx
        · intro _ x hx
          rcases List.mem_cons.mp hx with rfl | hx2
          · rfl
          · exact h1r x hx2
        · intro _ x hx
          rcases List.mem_cons.mp hx with rfl | hx2
          · rfl
          · exact h1r x hx2

/-- Control fields of `start`: no recorder is created, the status becomes
`"countdown"` and the interval is armed. -/
theorem start_control (s : Sess) :
    (start s).recorders = s.recorders ∧
    (start s).status = Status.countdown ∧
    (start s).countdownArmed = true := by
  by_cases hst : s.stream <;> simp [start, ensureStream, hst]

/-- Control fields of one countdown firing: either the counter reached 0
and exactly one recorder is pushed with status `"recording"` and the
interval cleared, or it is a plain decrement leaving recorders, status
and the interval untouched. -/
theorem countdownStep_control (t : Nat) (s : Sess) :
    ((countdownStep t s).recorders = EncState.recording :: s.recorders ∧
      (countdownStep t s).status = Status.recording ∧
      (countdownStep t s).countdownArmed = false) ∨
    ((countdownStep t s).recorders = s.recorders ∧
      (countdownStep t s).status = s.status ∧
      (countdownStep t s).countdownArmed = s.countdownArmed) := by
  by_cases hle : s.remaining - 1 ≤ 0
  · left
    simp [countdownStep, beginRecording, hle]
  · right
    simp [countdownStep, hle]

/-- `handleFilePick` never touches the recording machinery. -/
theorem handleFilePick_control (s : Sess) (d : Option ℚ) :
    (handleFilePick s d).recorders = s.recorders ∧
    (handleFilePick s d).status = s.status ∧
    (handleFilePick s d).countdownArmed = s.countdownArmed := by
  cases d with
  | none => exact ⟨rfl, rfl, rfl⟩
  | some q => by_cases hq : |q - 60| > 3 <;> simp [handleFilePick, hq]

/-- Every event of the event loop preserves the single-encoder
invariant. -/
theorem C2Inv_step (t : Nat) (e : Ev) (s : Sess) (h : C2Inv s) :
    C2Inv (step t e s) := by
  obtain ⟨h1, h2, h3⟩ := h
  cases e with
  | camera =>
      simp only [step]
      split
      · next hc =>
          unfold ensureStream
          split
          · exact ⟨h1, h2, h3⟩
          · exact ⟨h1, fun _ => h2 (by rcases hc with hc | hc <;> simp [hc]),
              fun hb => h3 hb⟩
      · exact ⟨h1, h2, h3⟩
  | start =>
      simp only [step]
      split
      · next hc =>
          have hall : ∀ r ∈ s.recorders, isRec r = false :=
            h2 (by rcases hc with hc | hc <;> simp [hc])
          obtain ⟨hrec, hst2, hcd⟩ := start_control s
          refine ⟨?_, fun _ => ?_, fun _ => ?_⟩
          · rw [hrec]
            exact h1
          · rw [hrec]
            exact hall
          · rw [hrec]
            exact hall
      · exact ⟨h1, h2, h3⟩
  | startFail msg =>
      simp only [step]
      split
      · next hc =>
          exact ⟨h1, fun _ => h2 (by rcases hc with hc | hc <;> simp [hc]),
            fun hb => h3 hb⟩
      · exact ⟨h1, h2, h3⟩
  | countdownFire =>
      simp only [step]
      split
      · next hcd =>
          have hall := h3 hcd
          rcases countdownStep_control t s with ⟨hrec, hst2, hcd2⟩ | ⟨hrec, hst2, hcd2⟩
          · refine ⟨?_, fun hne => absurd hst2 hne, fun hb => ?_⟩
            · rw [hrec]
              simp only [List.tail_cons]
              exact hall
            · exact absurd (hcd2.symm.trans hb) (by simp)
          · refine ⟨?_, fun hne => ?_, fun hb => ?_⟩
            · rw [hrec]
              exact h1
            · rw [hrec]
              exact h2 (by rw [← hst2]; exact hne)
            · rw [hrec]
              exact h3 (by rw [← hcd2]; exact hb)
      · exact ⟨h1, h2, h3⟩
  | beginFail msg =>
      by_cases hcd : s.countdownArmed = true
      · have hall := h3 hcd
        have hrec : (step t (Ev.beginFail msg) s).recorders = s.recorders := by
          by_cases hle : s.remaining - 1 ≤ 0 <;> simp [step, hcd, hle]
        refine ⟨?_, fun _ => ?_, fun _ => ?_⟩ <;> rw [hrec]
        · exact h1
        · exact hall
        · exact hall
      · have hs : step t (Ev.beginFail msg) s = s := by simp [step, hcd]
        rw [hs]
        exact ⟨h1, h2, h3⟩
  | stopBtn =>
      simp only [step]
      split
      · exact stop_C2Inv ⟨h1, h2, h3⟩
      · exact ⟨h1, h2, h3⟩
  | deadlineFire => exact stop_C2Inv ⟨h1, h2, h3⟩
  | onstopFire => exact onstop_C2Inv ⟨h1, h2, h3⟩
  | rafTick => exact ⟨h1, fun hne => h2 hne, fun hb => h3 hb⟩
  | cleanupEv => exact stop_C2Inv ⟨h1, h2, h3⟩
  | filePick d =>
      cases d with
      | none => exact ⟨h1, h2, h3⟩
      | some dur =>
          have hs : step t (Ev.filePick (some dur)) s = handleFilePick s dur := rfl
          obtain ⟨hrec, hst2, hcd2⟩ := handleFilePick_control s dur
          rw [hs]
          refine ⟨?_, fun hne => ?_, fun hb => ?_⟩
          · rw [hrec]
            exact h1
          · rw [hrec]
            exact h2 (by rw [← hst2]; exact hne)
          · rw [hrec]
            exact h3 (by rw [← hcd2]; exact hb)
  | sendRecordedEv r =>
      simp only [step]
      split
      · cases r with
        | ok p => cases p <;> exact ⟨h1, h2, h3⟩
        | httpError code text => exact ⟨h1, h2, h3⟩
        | fault msg => exact ⟨h1, h2, h3⟩
      · exact ⟨h1, h2, h3⟩
  | sendSelectedEv r =>
      simp only [step]
      split
      · cases r with
        | ok p => cases p <;> exact ⟨h1, h2, h3⟩
        | httpError code text => exact ⟨h1, h2, h3⟩
        | fault msg => exact ⟨h1, h2, h3⟩
      · exact ⟨h1, h2, h3⟩

/-- Every reachable state satisfies the single-encoder invariant. -/
theorem Reach_C2Inv {s : Sess} (h : Reach s) : C2Inv s := by
  induction h with
  | refl =>
      refine ⟨?_, ?_, ?_⟩ <;> simp [initSess]
  | tail h t e ih => exact C2Inv_step t e _ ih

/-- The invariant bounds the number of simultaneously recording encoders
by one. -/
theorem C2Inv_count {s : Sess} (h : C2Inv s) :
    List.countP isRec s.recorders ≤ 1 := by
  obtain ⟨h1, -, -⟩ := h
  cases hr : s.recorders with
  | nil => simp
  | cons r rest =>
      have hrest : List.countP isRec rest = 0 := by
        apply List.countP_eq_zero.mpr
        intro a ha
        have := h1 a (by simp [hr, ha])
        simp [this]
      rw [List.countP_cons, hrest]
      split <;> omega

/-- Running a timed event list keeps the state reachable. -/
theorem Reach_runT (p : List (Nat × Ev)) {s : Sess} (h : Reach s) :
    Reach (runT p s) := by
  induction p generalizing s with
  | nil => exact h
  | cons x rest ih =>
      obtain ⟨t0, e0⟩ := x
      exact ih (Reach.tail h t0 e0)

/-- Claim C2: in every reachable state at most one encoder is in the
`"recording"` state, and the enforced policy is rejection: a Start press
while the status is `"recording"` is a no-op (the Start button is
disabled), so no interleaving of start calls can produce two live
encoders recording simultaneously. -/
theorem spec_c2 (s : Sess) (t : Nat) (h : Reach s) :
    List.countP isRec s.recorders ≤ 1 ∧
    (s.status = Status.recording → step t Ev.start s = s) := by
  refine ⟨C2Inv_count (Reach_C2Inv h), ?_⟩
  intro hs
  simp [step, hs]

/-- Witness for C2 at the reachable state just after capture-begin: the
status is `"recording"`, a further Start press is rejected, and the
recording-encoder count is at most one. -/
theorem spec_c2_witness :
    (runT recTrace initSess).status = Status.recording ∧
    step 99 Ev.start (runT recTrace initSess) = runT recTrace initSess ∧
    List.countP isRec (runT recTrace initSess).recorders ≤ 1 :=
  ⟨by decide,
   (spec_c2 (runT recTrace initSess) 99 (Reach_runT recTrace Reach.refl)).2 (by decide),
   (spec_c2 (runT recTrace initSess) 99 (Reach_runT recTrace Reach.refl)).1⟩

/-- States with the same recorder list agree on `headIsRecording`. -/
theorem headIsRecording_congr {a b : Sess} (h : a.recorders = b.recorders) :
    headIsRecording a = headIsRecording b := by
  unfold headIsRecording
  rw [h]

/-- The hard-deadline invariant transfers along equal recorder and timer
fields. -/
theorem DInv_of_fields {a b : Sess} (h : DInv a)
    (hrec : b.recorders = a.recorders)
    (ha : b.stopTimerArmed = a.stopTimerArmed)
    (hd : b.stopTimerDue = a.stopTimerDue)
    (hs : b.startedAt = a.startedAt) : DInv b := by
  intro hx
  have hx2 : headIsRecording a = true := by
    rwa [headIsRecording_congr hrec] at hx
  obtain ⟨p1, p2⟩ := h hx2
  rw [ha, hd, hs]
  exact ⟨p1, p2⟩

/-- `ensureStream` touches neither the recorder list nor the deadline
timer. -/
theorem ensureStream_timer (s : Sess) :
    (ensureStream s).recorders = s.recorders ∧
    (ensureStream s).stopTimerArmed = s.stopTimerArmed ∧
    (ensureStream s).stopTimerDue = s.stopTimerDue ∧
    (ensureStream s).startedAt = s.startedAt := by
  by_cases hst : s.stream <;> simp [ensureStream, hst]

/-- `start` touches neither the recorder list nor the deadline timer. -/
theorem start_timer (s : Sess) :
    (start s).recorders = s.recorders ∧
    (start s).stopTimerArmed = s.stopTimerArmed ∧
    (start s).stopTimerDue = s.stopTimerDue ∧
    (start s).startedAt = s.startedAt := by
  by_cases hst : s.stream <;> simp [start, ensureStream, hst]

/-- After the `beginFail` catch path neither the recorder list nor the
deadline timer changed. -/
theorem beginFail_timer (t : Nat) (msg : String) (s : Sess) :
    (step t (Ev.beginFail msg) s).recorders = s.recorders ∧
    (step t (Ev.beginFail msg) s).stopTimerArmed = s.stopTimerArmed ∧
    (step t (Ev.beginFail msg) s).stopTimerDue = s.stopTimerDue ∧
    (step t (Ev.beginFail msg) s).startedAt = s.startedAt := by
  by_cases hcd : s.countdownArmed = true <;> by_cases hle : s.remaining - 1 ≤ 0 <;>
    simp [step, hcd, hle]

/-- `handleFilePick` touches neither the recorder list nor the deadline
timer. -/
theorem handleFilePick_timer (s : Sess) (d : Option ℚ) :
    (handleFilePick s d).recorders = s.recorders ∧
    (handleFilePick s d).stopTimerArmed = s.stopTimerArmed ∧
    (handleFilePick s d).stopTimerDue = s.stopTimerDue ∧
    (handleFilePick s d).startedAt = s.startedAt := by
  cases d with
  | none => exact ⟨rfl, rfl, rfl, rfl⟩
  | some q => by_cases hq : |q - 60| > 3 <;> simp [handleFilePick, hq]

/-- After `stop` the current recorder is never in the `"recording"`
state. -/
theorem stop_headNotRec (s : Sess) : headIsRecording (stop s) = false := by
  unfold stop headIsRecording
  cases hr : s.recorders with
  | nil => simp [hr]
  | cons r rest => cases r <;> simp [hr]

/-- After the terminal callback the current recorder is never in the
`"recording"` state. -/
theorem onstop_headNotRec (s : Sess) : headIsRecording (onstop s) = false := by
  cases hr : s.recorders with
  | nil => simp [onstop, headIsRecording, hr]
  | cons r rest => cases r <;> simp [onstop, headIsRecording, hr]

/-- `stop` vacuously satisfies the hard-deadline invariant. -/
theorem DInv_stop (s : Sess) : DInv (stop s) := by
  intro hx
  rw [stop_headNotRec] at hx
  simp at hx

/-- Every event preserves the hard-deadline invariant. -/
theorem DInv_step (t : Nat) (e : Ev) (s : Sess) (h : DInv s) :
    DInv (step t e s) := by
  cases e with
  | camera =>
      simp only [step]
      split
      · obtain ⟨p1, p2, p3, p4⟩ := ensureStream_timer s
        exact DInv_of_fields h p1 p2 p3 p4
      · exact h
  | start =>
      simp only [step]
      split
      · obtain ⟨p1, p2, p3, p4⟩ := start_timer s
        exact DInv_of_fields h p1 p2 p3 p4
      · exact h
  | startFail msg =>
      simp only [step]
      split
      · exact DInv_of_fields h rfl rfl rfl rfl
      · exact h
  | countdownFire =>
      by_cases hcd : s.countdownArmed = true
      · by_cases hle : s.remaining - 1 ≤ 0
        · intro hx
          constructor <;> simp [step, countdownStep, beginRecording, hcd, hle]
        · have p1 : (step t Ev.countdownFire s).recorders = s.recorders := by
            simp [step, countdownStep, hcd, hle]
          have p2 : (step t Ev.countdownFire s).stopTimerArmed = s.stopTimerArmed := by
            simp [step, countdownStep, hcd, hle]
          have p3 : (step t Ev.countdownFire s).stopTimerDue = s.stopTimerDue := by
            simp [step, countdownStep, hcd, hle]
          have p4 : (step t Ev.countdownFire s).startedAt = s.startedAt := by
            simp [step, countdownStep, hcd, hle]
          exact DInv_of_fields h p1 p2 p3 p4
      · have hs : step t Ev.countdownFire s = s := by simp [step, hcd]
        rw [hs]
        exact h
  | beginFail msg =>
      obtain ⟨p1, p2, p3, p4⟩ := beginFail_timer t msg s
      exact DInv_of_fields h p1 p2 p3 p4
  | stopBtn =>
      simp only [step]
      split
      · exact DInv_stop s
      · exact h
  | deadlineFire => exact DInv_stop s
  | onstopFire =>
      intro hx
      have hx2 : headIsRecording (onstop s) = true := hx
      rw [onstop_headNotRec] at hx2
      simp at hx2
  | rafTick => exact DInv_of_fields h rfl rfl rfl rfl
  | cleanupEv => exact DInv_of_fields (DInv_stop s) rfl rfl rfl rfl
  | filePick d =>
      cases d with
      | none => exact DInv_of_fields h rfl rfl rfl rfl
      | some dur =>
          obtain ⟨p1, p2, p3, p4⟩ := handleFilePick_timer s dur
          exact DInv_of_fields h p1 p2 p3 p4
  | sendRecordedEv r =>
      simp only [step]
      split
      · cases r with
        | ok p => cases p <;> exact DInv_of_fields h rfl rfl rfl rfl
        | httpError code text => exact DInv_of_fields h rfl rfl rfl rfl
        | fault msg => exact DInv_of_fields h rfl rfl rfl rfl
      · exact h
  | sendSelectedEv r =>
      simp only [step]
      split
      · cases r with
        | ok p => cases p <;> exact DInv_of_fields h rfl rfl rfl rfl
        | httpError code text => exact DInv_of_fields h rfl rfl rfl rfl
        | fault msg => exact DInv_of_fields h rfl rfl rfl rfl
      · exact h

/-- The hard-deadline invariant holds along any run. -/
theorem DInv_runT (p : List (Nat × Ev)) (s : Sess) (h : DInv s) :
    DInv (runT p s) := by
  induction p generalizing s with
  | nil => exact h
  | cons x rest ih =>
      obtain ⟨t0, e0⟩ := x
      exact ih (step t0 e0 s) (DInv_step t0 e0 s h)

/-- In a timing-faithful run, the event following a prefix that leaves
the deadline timer armed occurs no later than one quantum after the
timer's due time. -/
theorem faithfulB_last (q : Nat) (p : List (Nat × Ev)) (t : Nat) (e : Ev) :
    ∀ s : Sess, faithfulB q s (p ++ [(t, e)]) = true →
      (runT p s).stopTimerArmed = true → t ≤ (runT p s).stopTimerDue + q := by
  induction p with
  | nil =>
      intro s hf ha
      simp only [List.nil_append, faithfulB, Bool.and_eq_true, Bool.or_eq_true,
        Bool.not_eq_true', decide_eq_true_eq] at hf
      rcases hf.1 with hfa | hle
      · rw [runT] at ha
        rw [ha] at hfa
        cases hfa
      · exact hle
  | cons x rest ih =>
      intro s hf ha
      obtain ⟨t0, e0⟩ := x
      simp only [List.cons_append, faithfulB, Bool.and_eq_true] at hf
      exact ih (step t0 e0 s) hf.2 ha

/-- The initial state satisfies the hard-deadline invariant. -/
theorem DInv_init : DInv initSess := by
  intro hx
  simp [headIsRecording, initSess] at hx

/-- Claim C5: `stop` (and `cleanup`, which calls it) cancels both the
countdown interval and the hard 60-second deadline timer; a deadline
callback that nevertheless runs against an already-stopped (non-recording)
encoder with both timers already cleared is a no-op by construction; and
in every timing-faithful run (armed timers fire within one scheduling
quantum `q` of their due time), no event — in particular no
presentation-clock tick — can be observed more than `60000 + q`
milliseconds after capture-begin while the encoder is still recording:
the encoder is out of the recording state by then. -/
theorem spec_c5 :
    (∀ s : Sess, (stop s).stopTimerArmed = false ∧ (stop s).countdownArmed = false ∧
      (cleanup s).stopTimerArmed = false ∧ (cleanup s).countdownArmed = false) ∧
    (∀ t : Nat, ∀ s : Sess, headIsRecording s = false → s.stopTimerArmed = false →
      s.countdownArmed = false → step t Ev.deadlineFire s = s) ∧
    (∀ q t : Nat, ∀ p : List (Nat × Ev), ∀ e : Ev,
      faithfulB q initSess (p ++ [(t, e)]) = true →
      headIsRecording (runT p initSess) = true →
      t ≤ (runT p initSess).startedAt + 60000 + q) := by
  refine ⟨fun s => ⟨rfl, rfl, rfl, rfl⟩, ?_, ?_⟩
  · intro t s h1 h2 h3
    show stop s = s
    unfold stop
    unfold headIsRecording at h1
    cases hr : s.recorders with
    | nil =>
        simp only [hr]
        cases s
        simp_all
    | cons r rest =>
        rw [hr] at h1
        cases r with
        | recording => simp at h1
        | stopping =>
            simp only [hr]
            cases s
            simp_all
        | inactive =>
            simp only [hr]
            cases s
            simp_all
  · intro q t p e hf hrec
    obtain ⟨ha, hdue⟩ := DInv_runT p initSess DInv_init hrec
    have hle := faithfulB_last q p t e initSess hf ha
    rw [hdue] at hle
    exact hle

/-- Witness for C5: a stale deadline firing against the stopped initial
state is a no-op, and in a concrete faithful run (camera, start, five
countdown firings at seconds 1-5, deadline at 60005 ms with quantum 5)
the deadline event at 60005 ms respects the 60000 + quantum bound after
the capture-begin at 5 ms. -/
theorem spec_c5_witness :
    headIsRecording initSess = false ∧
    step 7 Ev.deadlineFire initSess = initSess ∧
    faithfulB 5 initSess (recTrace ++ [(60005, Ev.deadlineFire)]) = true ∧
    headIsRecording (runT recTrace initSess) = true ∧
    60005 ≤ (runT recTrace initSess).startedAt + 60000 + 5 :=
  ⟨by decide,
   spec_c5.2.1 7 initSess (by decide) (by decide) (by decide),
   by decide,
   by decide,
   spec_c5.2.2 5 60005 recTrace Ev.deadlineFire (by decide) (by decide)⟩
